import Mathlib

/-!
Shallow embedding of the interview-session core of the StitchInterviewer
repository: the Session Controller in
`client/src/components/project/test-interview-new.tsx` (second revision of the
file, the one the line references of the specification point at), the mock
voice client (`mockVapi`) defined inside its `startInterview` function, the
backend fallback in `server/vapi.ts` (`createInterviewAssistant`), and the
storage normalisation in `server/db-storage.ts` (`createTranscript`).

Timers are modelled by an explicit scheduler: simulated time advances in
1-millisecond ticks; each active interval carries its period and the number of
milliseconds remaining until its next fire, and firing happens inside `tick`.
The pseudo-random stream of `Math.random()` is a parameter
`rand : Nat -> Rat` consumed left to right.
-/

/-- Speaker tag of a scripted line: the component calls these
`'assistant'` and `'user'` (`MessageType`). -/
inductive Speaker
  | assistant
  | user
deriving DecidableEq

/-- One line of the hard-coded mock interview script (`mockScript` entries
`{ speaker, text }`). -/
structure ScriptLine where
  speaker : Speaker
  text : String
deriving DecidableEq

/-- The fixed script of the mock interview, verbatim from `mockScript` in
`startInterview` (test-interview-new.tsx lines 358-369). -/
def mockScript : List ScriptLine :=
  [ ⟨Speaker.assistant, "Hello, I\x27m your AI interviewer today. I\x27ll be asking some questions based on our research objectives."⟩,
    ⟨Speaker.assistant, "Could you tell me a bit about yourself and your experience with this topic?"⟩,
    ⟨Speaker.user, "[User speaks]"⟩,
    ⟨Speaker.assistant, "That\x27s interesting. What specific challenges have you faced in this area?"⟩,
    ⟨Speaker.user, "[User describes challenges]"⟩,
    ⟨Speaker.assistant, "How did you overcome those challenges? Were there any specific strategies that worked well?"⟩,
    ⟨Speaker.user, "[User explains strategies]"⟩,
    ⟨Speaker.assistant, "Based on your experience, what improvements would you suggest for others facing similar situations?"⟩,
    ⟨Speaker.user, "[User provides suggestions]"⟩,
    ⟨Speaker.assistant, "Thank you for sharing your insights. Is there anything else you\x27d like to add that we haven\x27t covered?"⟩ ]

/-- A transcript entry as accumulated by the component
(`TranscriptMessage`: `{ id, type, text, timestamp }`). The source generates
`id` as a random base-36 string whose only role is uniqueness; it is modelled
as a fresh counter value. `timestamp` (`new Date()`) is milliseconds of
simulated time. -/
structure TranscriptMessage where
  id : Nat
  type : Speaker
  text : String
  timestamp : Nat
deriving DecidableEq

/-- Default script line used with `List.getD` (never reached on the fixed
ten-element script). -/
def defaultLine : ScriptLine := ⟨Speaker.assistant, ""⟩

/-- What an active interval does when it fires: `volumeTick` is the
`setInterval` body registered by `on('volume-level', cb)` (emit
`Math.random() * 0.5` to the callback); `scriptTick idx` is the body of the
transcript interval created by `start()`, whose closure variable
`messageIndex` is carried as `idx`. -/
inductive TimerAction
  | volumeTick
  | scriptTick (idx : Nat)
deriving DecidableEq

/-- One live `setInterval` registration: its id, its period in ms, the ms
left until it next fires, and its body. -/
structure ActiveTimer where
  id : Nat
  period : Nat
  remaining : Nat
  action : TimerAction
deriving DecidableEq

/-- Combined state of the mock client object and the component state it
mutates (`transcript` via `setTranscript`, `volume` via `setVolume`).
`volumeEmits` records every value passed to the volume-level callback, and
`randIdx` is the read position in the pseudo-random stream. Browser interval
ids are positive, so `nextTimerId` starts at 1 and the JS truthiness tests
`if (mockVapi.mockVolumeInterval)` coincide with `Option` matching. -/
structure MockState where
  now : Nat
  nextTimerId : Nat
  nextMsgId : Nat
  timers : List ActiveTimer
  mockVolumeInterval : Option Nat
  mockTranscriptInterval : Option Nat
  transcript : List TranscriptMessage
  volume : ℚ
  volumeEmits : List ℚ
  randIdx : Nat
deriving DecidableEq

/-- State of a freshly mounted component with a freshly built `mockVapi`
object: no timers, empty transcript, `volume` state initialised to 0. -/
def freshMock : MockState :=
  { now := 0
    nextTimerId := 1
    nextMsgId := 0
    timers := []
    mockVolumeInterval := none
    mockTranscriptInterval := none
    transcript := []
    volume := 0
    volumeEmits := []
    randIdx := 0 }

/-- JS `clearInterval(i)`: drop the interval with id `i`; a no-op when no such
interval is live. -/
def clearIntervalM (i : Nat) (s : MockState) : MockState :=
  { s with timers := s.timers.filter (fun tm => tm.id ≠ i) }

/-- JS `setInterval(body, period)`: register a fresh interval whose first fire
is `period` ms away, returning its id. -/
def setIntervalM (a : TimerAction) (period : Nat) (s : MockState) : Nat × MockState :=
  (s.nextTimerId,
   { s with
      nextTimerId := s.nextTimerId + 1
      timers := s.timers ++ [⟨s.nextTimerId, period, period, a⟩] })

/-- Mock method `on(event, callback)` (test-interview-new.tsx lines 421-438):
only the string `'volume-level'` is handled — it starts the 1000 ms volume
simulation interval and stores its id in `mockVolumeInterval`; every other
event name just logs and returns null, changing nothing. -/
def mockOn (event : String) (s : MockState) : MockState :=
  if event = "volume-level" then
    let p := setIntervalM TimerAction.volumeTick 1000 s
    { p.2 with mockVolumeInterval := some p.1 }
  else
    s

/-- Mock method `start()` (lines 388-420): replace the transcript with the first
scripted line stamped now (`setTranscript([...])`), then start the 8000 ms
transcript interval with its closure variable `messageIndex = 1`, storing the
interval id in `mockTranscriptInterval`. -/
def mockStart (s : MockState) : MockState :=
  let line0 := mockScript.getD 0 defaultLine
  let s1 :=
    { s with
        transcript := [⟨s.nextMsgId, line0.speaker, line0.text, s.now⟩]
        nextMsgId := s.nextMsgId + 1 }
  let p := setIntervalM (TimerAction.scriptTick 1) 8000 s1
  { p.2 with mockTranscriptInterval := some p.1 }

/-- Mock method `stop()` (lines 377-386): clear the volume interval if its id was
stored, then the transcript interval if its id was stored. The stored ids are
not nulled out, exactly as in the source; `clearIntervalM` makes the repeat
clears harmless. -/
def mockStop (s : MockState) : MockState :=
  let s1 :=
    match s.mockVolumeInterval with
    | some i => clearIntervalM i s
    | none => s
  match s1.mockTranscriptInterval with
  | some i => clearIntervalM i s1
  | none => s1

/-- The `useEffect` cleanup (lines 549-584): call `stop()` on the instance,
then `clearInterval` on each interval id that was captured from the instance
when the effect ran. -/
def unmountCleanup (s : MockState) : MockState :=
  let s1 := mockStop s
  let s2 :=
    match s.mockVolumeInterval with
    | some i => clearIntervalM i s1
    | none => s1
  match s.mockTranscriptInterval with
  | some i => clearIntervalM i s2
  | none => s2

/-- Fire one interval body. Returns the updated state together with the
action the interval carries afterwards, or `none` when the body cleared its
own interval (the script interval does so once `messageIndex` reaches the
script length). -/
def fireAction (rand : Nat → ℚ) (a : TimerAction) (s : MockState) :
    MockState × Option TimerAction :=
  match a with
  | TimerAction.volumeTick =>
      let v := rand s.randIdx * (1 / 2)
      ({ s with
          volume := v
          volumeEmits := s.volumeEmits ++ [v]
          randIdx := s.randIdx + 1 },
       some TimerAction.volumeTick)
  | TimerAction.scriptTick idx =>
      if idx < mockScript.length then
        let line := mockScript.getD idx defaultLine
        ({ s with
            transcript := s.transcript ++ [⟨s.nextMsgId, line.speaker, line.text, s.now⟩]
            nextMsgId := s.nextMsgId + 1 },
         some (TimerAction.scriptTick (idx + 1)))
      else
        (s, none)

/-- Advance simulated time by one millisecond: every live interval counts
down; an interval reaching zero fires (in registration order) and is
re-armed at its period unless its body cleared it. -/
def tick (rand : Nat → ℚ) (s : MockState) : MockState :=
  s.timers.foldl
    (fun acc tm =>
      if tm.remaining ≤ 1 then
        let p := fireAction rand tm.action acc
        match p.2 with
        | some a => { p.1 with timers := p.1.timers ++ [⟨tm.id, tm.period, tm.period, a⟩] }
        | none => p.1
      else
        { acc with timers := acc.timers ++ [⟨tm.id, tm.period, tm.remaining - 1, tm.action⟩] })
    { s with now := s.now + 1, timers := [] }

/-- Advance simulated time by `n` milliseconds. -/
def advance (rand : Nat → ℚ) : Nat → MockState → MockState
  | 0, s => s
  | n + 1, s => tick rand (advance rand n s)

/-- Which client implementation `startInterview` attaches. -/
inductive ClientKind
  | mock
  | real
deriving DecidableEq

/-- The attach sequence the component performs on the mock branch of
`startInterview`: build the mock object, register the volume-level listener,
then `await mockVapi.start()`. -/
def attachMock : MockState :=
  mockStart (mockOn "volume-level" freshMock)

/-- JS `String.prototype.startsWith`: a prefix test on the character
sequences. -/
def strStartsWith (p s : String) : Bool :=
  p.data.isPrefixOf s.data

/-- Routing decision of `startInterview(callId)` (lines 350-460): a call id
with the `'mock-call-'` placeholder (JS `callId.startsWith('mock-call-')`,
the prefix test) makes it build and attach `mockVapi` and return before the
real-client code; otherwise it constructs `new Vapi(apiKey, callId)`. The
configured `apiKey` plays no part in the decision. -/
def startInterview (_apiKey : String) (callId : String) : ClientKind × Option MockState :=
  if strStartsWith "mock-call-" callId then
    (ClientKind.mock, some attachMock)
  else
    (ClientKind.real, none)

/-- The slice of a stored project row that `createInterviewAssistant`
reads. -/
structure Project where
  id : Nat
  name : String
  researchObjective : Option String
  interviewPrompt : Option String
deriving DecidableEq

/-- Result record of the backend `createInterviewAssistant` (server/vapi.ts,
first revision — the one the specification's line references point at). -/
structure AssistantResult where
  assistantId : String
deriving DecidableEq

/-- Outcome of the external `vapiClient.assistants.create` call:
`Except.error` when the SDK throws, `Except.ok id` when it returns an
assistant whose id is `id` (the empty string standing for the falsy
`!assistant.id` case). -/
def VapiApiOutcome := Except String String

/-- Backend `createInterviewAssistant(projectId)` (server/vapi.ts lines
28-144), with its collaborator results passed in: the project row looked up
by `storage.getProject`, the outcome of the SDK create call, and `Date.now()`
as `nowMs`. A missing project throws, which the outer catch rewraps; an SDK
failure or falsy assistant id is caught by the inner catch, which returns the
`mock-assistant-` placeholder instead of propagating. -/
def createInterviewAssistant (projectRow : Option Project)
    (apiOutcome : VapiApiOutcome) (nowMs : Nat) : Except String AssistantResult :=
  match projectRow with
  | none => Except.error "Failed to create interview assistant"
  | some _ =>
      match apiOutcome with
      | Except.ok aid =>
          if aid = "" then
            Except.ok ⟨"mock-assistant-" ++ toString nowMs⟩
          else
            Except.ok ⟨aid⟩
      | Except.error _ =>
          Except.ok ⟨"mock-assistant-" ++ toString nowMs⟩

/-- Drizzle normalisation `value || null` applied to the nullable text
columns in `DatabaseStorage.createTranscript`: JS falsy strings (absent,
null, or empty) store as SQL null. -/
def orNullStr : Option String → Option String
  | some s => if s = "" then none else some s
  | none => none

/-- Drizzle normalisation `value || null` applied to the nullable integer
columns in `DatabaseStorage.createTranscript`: JS falsy numbers (absent,
null, or 0) store as SQL null. -/
def orNullInt : Option Int → Option Int
  | some n => if n = 0 then none else some n
  | none => none

/-- Insert payload of `createTranscript` (`InsertTranscript` picked from the
`interview_transcripts` table in shared/schema.ts). -/
structure InsertTranscript where
  projectId : Nat
  assistantId : String
  participantName : Option String
  transcriptData : List TranscriptMessage
  summary : Option String
  keyFindings : Option String
  sentimentScore : Option Int
  duration : Option Int
deriving DecidableEq

/-- Stored row of the `interview_transcripts` table (shared/schema.ts lines
31-42): serial `id`, server-assigned `conductedAt`, and the nullable
optional columns. -/
structure InterviewTranscript where
  id : Nat
  projectId : Nat
  assistantId : String
  participantName : Option String
  conductedAt : Nat
  transcriptData : List TranscriptMessage
  summary : Option String
  keyFindings : Option String
  sentimentScore : Option Int
  duration : Option Int
deriving DecidableEq

/-- Storage method `createTranscript` (server/db-storage.ts lines 132-146):
insert the payload with each optional column passed through `|| null`; the
database supplies the serial id and the `conductedAt` default. -/
def createTranscript (serialId : Nat) (serverNow : Nat)
    (t : InsertTranscript) : InterviewTranscript :=
  { id := serialId
    projectId := t.projectId
    assistantId := t.assistantId
    participantName := orNullStr t.participantName
    conductedAt := serverNow
    transcriptData := t.transcriptData
    summary := orNullStr t.summary
    keyFindings := orNullStr t.keyFindings
    sentimentScore := orNullInt t.sentimentScore
    duration := orNullInt t.duration }

/-- Modelled from the spec: no code under src/ computes the persisted
duration (the transcript-persisting caller of `createTranscript` is absent;
only the storage side is present). The spec defines it as "last entry
timestamp − first entry timestamp, in whole seconds, floored; zero or absent
if fewer than 2 entries", with timestamps here in milliseconds and in
receipt order. -/
def durationSeconds (entries : List TranscriptMessage) : Nat :=
  match entries with
  | [] => 0
  | [_] => 0
  | e :: rest => ((rest.getLastD e).timestamp - e.timestamp) / 1000

/-- Component state touched by `toggleMute` (lines 541-546): whether a client
instance is attached, the `isMuted` flag (default false), and the values
forwarded to the attached client's `setMuted`. -/
structure MuteState where
  vapiAttached : Bool
  isMuted : Bool
  sentSetMuted : List Bool
deriving DecidableEq

/-- Handler `toggleMute()`: only when `vapiInstance` is non-null does it forward
`setMuted(!isMuted)` to the client and flip the flag; otherwise the guard
fails and nothing happens. -/
def toggleMute (s : MuteState) : MuteState :=
  if s.vapiAttached then
    { s with
        isMuted := !s.isMuted
        sentSetMuted := s.sentSetMuted ++ [!s.isMuted] }
  else
    s

/-- Termination-path events reaching the Session Controller component. -/
inductive SessionEvent
  | endInterviewClick
  | remoteCallEnd
  | unmountTeardown
deriving DecidableEq

/-- Component state relevant to the termination paths, plus a count of
invocations of the storage collaborator's transcript write. -/
structure ControllerState where
  vapiAttached : Bool
  isInterviewActive : Bool
  isCreatingCall : Bool
  transcriptWrites : Nat
deriving DecidableEq

/-- The three termination handlers of the component: `endInterview` (lines
532-538) stops and detaches the client when one is attached; the `call-end`
handler (lines 479-483) lowers the active/creating flags; the unmount cleanup
stops the client and clears intervals. None of them performs a storage
write — the component contains no transcript-persistence call at all. -/
def stepController (s : ControllerState) : SessionEvent → ControllerState
  | SessionEvent.endInterviewClick =>
      if s.vapiAttached then
        { s with vapiAttached := false, isInterviewActive := false }
      else
        s
  | SessionEvent.remoteCallEnd =>
      { s with isInterviewActive := false, isCreatingCall := false }
  | SessionEvent.unmountTeardown => s

/-- Lifecycle states of a spec Session. -/
inductive SessionStatus
  | idle
  | connecting
  | active
  | ended
deriving DecidableEq

/-- Reasons the spec allows for `end(reason)`. -/
inductive EndReason
  | userRequested
  | remoteEnded
  | componentUnmounted
deriving DecidableEq

/-- Modelled from the spec: the Session of §3 with its `savedFlag`, which no
code under src/ implements (the spec's `persistIfNeeded` save path is absent
from the sources; the included component never persists). `writes` counts
invocations of the storage collaborator's transcript write. -/
structure SpecSession where
  status : SessionStatus
  transcript : List TranscriptMessage
  savedFlag : Bool
  writes : Nat
deriving DecidableEq

/-- Modelled from the spec: `end(reason)` transitions to `ended` and runs
`persistIfNeeded` — when the transcript is non-empty and `savedFlag` is
still false, submit it (counted in `writes`) and set `savedFlag`; submission
is modelled as succeeding, the case §4.1 ties `savedFlag` to. All three
reasons route to the same decision. -/
def specEnd (s : SpecSession) (_reason : EndReason) : SpecSession :=
  let s1 := { s with status := SessionStatus.ended }
  if s1.transcript.isEmpty || s1.savedFlag then
    s1
  else
    { s1 with writes := s1.writes + 1, savedFlag := true }

/-! Helper lemmas about the termination paths and the persistence model. -/

/-- No termination handler of the component performs a storage write. -/
theorem stepController_writes (s : ControllerState) (e : SessionEvent) :
    (stepController s e).transcriptWrites = s.transcriptWrites := by
  cases e <;> simp only [stepController]
  split <;> rfl

/-- Across any event sequence the component's storage-write count is
unchanged. -/
theorem foldl_stepController_writes (evs : List SessionEvent) :
    ∀ s : ControllerState, (evs.foldl stepController s).transcriptWrites = s.transcriptWrites := by
  induction evs with
  | nil => intro s; rfl
  | cons e rest ih =>
      intro s
      simpa [List.foldl_cons, stepController_writes] using
        (ih (stepController s e)).trans (stepController_writes s e)

/-- Write-count bound for the spec Session: a fold of `end` calls adds at
most one write, and none once `savedFlag` holds. -/
theorem foldl_specEnd_writes_le (reasons : List EndReason) :
    ∀ s : SpecSession,
      (reasons.foldl specEnd s).writes ≤ s.writes + (if s.savedFlag then 0 else 1) := by
  induction reasons with
  | nil => intro s; split <;> simp
  | cons r rest ih =>
      intro s
      rw [List.foldl_cons]
      by_cases hs : s.savedFlag
      · have hend : specEnd s r = { s with status := SessionStatus.ended } := by
          simp [specEnd, hs]
        rw [hend]
        simpa [hs] using ih { s with status := SessionStatus.ended }
      · by_cases he : s.transcript.isEmpty
        · have hend : specEnd s r = { s with status := SessionStatus.ended } := by
            simp [specEnd, hs, he]
          rw [hend]
          simpa [hs] using ih { s with status := SessionStatus.ended }
        · have hend : specEnd s r =
              { s with status := SessionStatus.ended, writes := s.writes + 1,
                       savedFlag := true } := by
            simp [specEnd, hs, he]
          rw [hend]
          simpa [hs] using
            ih { s with status := SessionStatus.ended, writes := s.writes + 1,
                        savedFlag := true }

/-- Once `savedFlag` holds, a fold of further `end` calls never writes. -/
theorem foldl_specEnd_saved (reasons : List EndReason) :
    ∀ s : SpecSession, s.savedFlag = true →
      (reasons.foldl specEnd s).writes = s.writes := by
  induction reasons with
  | nil => intro s _; rfl
  | cons r rest ih =>
      intro s hs
      have hend : specEnd s r = { s with status := SessionStatus.ended } := by
        simp [specEnd, hs]
      rw [List.foldl_cons, hend]
      exact ih _ (by simpa using hs)

/-- C1. At-most-once save: across any sequence of termination events on the
component (`endInterview` clicks, remote `call-end`, unmount teardown) the
storage collaborator's transcript write is never invoked at all — the code
contains no automatic persistence path — so it fires at most once; and on the
spec-modelled Session (`savedFlag`, absent from src/), any sequence of
`end(reason)` calls writes at most once from a fresh session, with no write
at all ever issued from a state whose `savedFlag` is already true. -/
theorem atMostOnceSave :
    (∀ (evs : List SessionEvent) (s : ControllerState),
        (evs.foldl stepController s).transcriptWrites = s.transcriptWrites)
    ∧ (∀ (reasons : List EndReason) (s : SpecSession),
        s.savedFlag = false → s.writes = 0 → (reasons.foldl specEnd s).writes ≤ 1)
    ∧ (∀ (reasons : List EndReason) (s : SpecSession),
        s.savedFlag = true → (reasons.foldl specEnd s).writes = s.writes) := by
  refine ⟨fun evs s => foldl_stepController_writes evs s, fun reasons s hf h0 => ?_, 
    fun reasons s hs => foldl_specEnd_saved reasons s hs⟩
  have := foldl_specEnd_writes_le reasons s
  rw [hf, h0] at this
  simpa using this

/-- Witness for C1 at a concrete double-termination scenario: a user end
followed by a late remote end and an unmount, on a session holding one
transcript entry, writes exactly once. -/
theorem atMostOnceSave_witness :
    (([SessionEvent.endInterviewClick, SessionEvent.remoteCallEnd,
        SessionEvent.unmountTeardown].foldl stepController
          ⟨true, true, false, 0⟩).transcriptWrites = 0)
    ∧ (([EndReason.userRequested, EndReason.remoteEnded,
          EndReason.componentUnmounted].foldl specEnd
            ⟨SessionStatus.active, [⟨0, Speaker.assistant, "hello", 0⟩], false, 0⟩).writes ≤ 1)
    ∧ (([EndReason.userRequested, EndReason.remoteEnded,
          EndReason.componentUnmounted].foldl specEnd
            ⟨SessionStatus.active, [⟨0, Speaker.assistant, "hello", 0⟩], false, 0⟩).writes = 1) := by
  refine ⟨atMostOnceSave.1 _ _, atMostOnceSave.2.1 _ _ rfl rfl, by decide⟩

/-- C2. Placeholder fallback routing: whenever the call id carries the
`mock-call-` placeholder, `startInterview` attaches the simulated client
built by the mock attach sequence and never the real one, whatever API key
is configured. -/
theorem placeholderRouting (apiKey callId : String)
    (h : strStartsWith "mock-call-" callId = true) :
    startInterview apiKey callId = (ClientKind.mock, some attachMock)
    ∧ (startInterview apiKey callId).1 ≠ ClientKind.real := by
  constructor
  · simp [startInterview, h]
  · simp [startInterview, h]

/-- Witness for C2 at the concrete placeholder id `mock-call-1747`. -/
theorem placeholderRouting_witness :
    startInterview "configured-real-key" "mock-call-1747" = (ClientKind.mock, some attachMock) :=
  (placeholderRouting "configured-real-key" "mock-call-1747" (by decide)).1

/-- C3. Backend fallback: for any project row that exists, when the external
assistant-creation call throws (or yields a falsy assistant id), the backend
`createInterviewAssistant` does not propagate the failure but answers with
the `mock-assistant-` prefixed placeholder identifier, so the caller always
receives a defined identifier. -/
theorem assistantFallback (p : Project) (err : String) (nowMs : Nat) :
    createInterviewAssistant (some p) (Except.error err) nowMs
        = Except.ok ⟨"mock-assistant-" ++ toString nowMs⟩
    ∧ createInterviewAssistant (some p) (Except.ok "") nowMs
        = Except.ok ⟨"mock-assistant-" ++ toString nowMs⟩
    ∧ strStartsWith "mock-assistant-" ("mock-assistant-" ++ toString nowMs) = true := by
  refine ⟨rfl, rfl, ?_⟩
  have : ("mock-assistant-".data <+: ("mock-assistant-" ++ toString nowMs).data) := by
    rw [String.data_append]
    exact List.prefix_append _ _
  simpa [strStartsWith, List.isPrefixOf_iff_prefix] using this

/-- C8. Mute is local: with no client attached `toggleMute` changes nothing
(in particular from the defaults the flag stays `false` and nothing is
forwarded), and with a client attached it flips `isMuted` and forwards the
new value via `setMuted`. -/
theorem muteIsLocal (m : Bool) (hist : List Bool) :
    toggleMute ⟨false, m, hist⟩ = ⟨false, m, hist⟩
    ∧ toggleMute ⟨false, false, []⟩ = ⟨false, false, []⟩
    ∧ (toggleMute ⟨true, m, hist⟩).isMuted = !m
    ∧ (toggleMute ⟨true, m, hist⟩).sentSetMuted = hist ++ [!m] := by
  refine ⟨rfl, rfl, rfl, rfl⟩

/-- C10. Falsy-to-null normalisation in `createTranscript`: each optional
column stores as null exactly when the supplied value is absent or falsy
(0 for the integer columns, the empty string for the text columns); in
particular an insert with duration 0 produces the very same stored row as an
insert with the duration absent, and likewise for sentiment score 0. -/
theorem falsyStoredAsNull (g n : Nat) (t : InsertTranscript) :
    ((createTranscript g n t).duration = none ↔ (t.duration = none ∨ t.duration = some 0))
    ∧ ((createTranscript g n t).sentimentScore = none
        ↔ (t.sentimentScore = none ∨ t.sentimentScore = some 0))
    ∧ ((createTranscript g n t).participantName = none
        ↔ (t.participantName = none ∨ t.participantName = some ""))
    ∧ ((createTranscript g n t).summary = none ↔ (t.summary = none ∨ t.summary = some ""))
    ∧ ((createTranscript g n t).keyFindings = none
        ↔ (t.keyFindings = none ∨ t.keyFindings = some ""))
    ∧ createTranscript g n { t with duration := some 0 }
        = createTranscript g n { t with duration := none }
    ∧ createTranscript g n { t with sentimentScore := some 0 }
        = createTranscript g n { t with sentimentScore := none } := by
  refine ⟨?_, ?_, ?_, ?_, ?_, rfl, rfl⟩
  · rcases hd : t.duration with _ | d
    · simp [createTranscript, orNullInt, hd]
    · by_cases h0 : d = 0 <;> simp [createTranscript, orNullInt, hd, h0]
  · rcases hd : t.sentimentScore with _ | d
    · simp [createTranscript, orNullInt, hd]
    · by_cases h0 : d = 0 <;> simp [createTranscript, orNullInt, hd, h0]
  · rcases hd : t.participantName with _ | v
    · simp [createTranscript, orNullStr, hd]
    · by_cases h0 : v = "" <;> simp [createTranscript, orNullStr, hd, h0]
  · rcases hd : t.summary with _ | v
    · simp [createTranscript, orNullStr, hd]
    · by_cases h0 : v = "" <;> simp [createTranscript, orNullStr, hd, h0]
  · rcases hd : t.keyFindings with _ | v
    · simp [createTranscript, orNullStr, hd]
    · by_cases h0 : v = "" <;> simp [createTranscript, orNullStr, hd, h0]

/-! Helper lemmas about the mock scheduler. -/

/-- Clearing an interval touches only the timer table. -/
theorem clearIntervalM_mockVolumeInterval (i : Nat) (s : MockState) :
    (clearIntervalM i s).mockVolumeInterval = s.mockVolumeInterval := rfl

/-- Clearing an interval leaves the stored transcript-interval id alone. -/
theorem clearIntervalM_mockTranscriptInterval (i : Nat) (s : MockState) :
    (clearIntervalM i s).mockTranscriptInterval = s.mockTranscriptInterval := rfl

/-- Filtering the same id out twice is the same as once. -/
theorem filter_id_idem (i : Nat) (l : List ActiveTimer) :
    (l.filter (fun tm => tm.id ≠ i)).filter (fun tm => tm.id ≠ i)
      = l.filter (fun tm => tm.id ≠ i) := by
  induction l with
  | nil => rfl
  | cons a l ih => by_cases hi : a.id = i <;> simp [hi, ih]

/-- Calling `stop()` twice is the same as calling it once: the repeat
`clearInterval` calls hit ids that are already gone. -/
theorem mockStop_idem (s : MockState) : mockStop (mockStop s) = mockStop s := by
  rcases hv : s.mockVolumeInterval with _ | i <;>
    rcases ht : s.mockTranscriptInterval with _ | j
  · simp [mockStop, hv, ht]
  · simp [mockStop, hv, ht, clearIntervalM, filter_id_idem]
  · simp [mockStop, hv, ht, clearIntervalM, filter_id_idem]
  · simp [mockStop, hv, ht, clearIntervalM, filter_id_idem]
    refine List.filter_congr ?_
    intro a _
    cases hI : decide (a.id = i) <;> cases hJ : decide (a.id = j) <;> simp [hI, hJ]

/-- The unmount cleanup equals a plain `stop()`: its extra `clearInterval`
calls target the very ids `stop()` already removed. -/
theorem unmountCleanup_eq_mockStop (s : MockState) : unmountCleanup s = mockStop s := by
  rcases hv : s.mockVolumeInterval with _ | i <;>
    rcases ht : s.mockTranscriptInterval with _ | j
  · simp [unmountCleanup, mockStop, hv, ht]
  · simp [unmountCleanup, mockStop, hv, ht, clearIntervalM, filter_id_idem]
  · simp [unmountCleanup, mockStop, hv, ht, clearIntervalM, filter_id_idem]
  · simp [unmountCleanup, mockStop, hv, ht, clearIntervalM, filter_id_idem]
    refine List.filter_congr ?_
    intro a _
    cases hI : decide (a.id = i) <;> cases hJ : decide (a.id = j) <;> simp [hI, hJ]

/-- A state with no live interval only sees its clock advance on a tick. -/
theorem tick_no_timers (rand : Nat → ℚ) {s : MockState} (h : s.timers = []) :
    tick rand s = { s with now := s.now + 1 } := by
  cases s with
  | mk now nid nmid timers mvi mti tr v ve ri =>
      simp only [MockState.mk.injEq] at h ⊢
      subst h
      rfl

/-- A state with no live interval only sees its clock advance, however far
simulated time moves. -/
theorem advance_no_timers (rand : Nat → ℚ) (n : Nat) {s : MockState}
    (h : s.timers = []) :
    advance rand n s = { s with now := s.now + n } := by
  induction n with
  | zero => rfl
  | succ n ih =>
      show tick rand (advance rand n s) = _
      rw [ih, tick_no_timers rand (by simpa using h)]
      simp [Nat.add_assoc]

/-- Closed form of the state reached `t` ms after registering only the
volume-level listener on a fresh mock (no `start()` call): the single
1000 ms interval is counting down, and one pseudo-random half-scaled value
has been emitted per elapsed full second. -/
def stateAtVol (rand : Nat → ℚ) (t : Nat) : MockState :=
  { now := t
    nextTimerId := 2
    nextMsgId := 0
    timers := [⟨1, 1000, 1000 - t % 1000, TimerAction.volumeTick⟩]
    mockVolumeInterval := some 1
    mockTranscriptInterval := none
    transcript := []
    volume := if t / 1000 = 0 then 0 else rand (t / 1000 - 1) * (1 / 2)
    volumeEmits := (List.range (t / 1000)).map (fun i => rand i * (1 / 2))
    randIdx := t / 1000 }

/-- Registering the volume-level listener on a fresh mock lands exactly in
the closed form at time 0. -/
theorem mockOn_vol_eq (rand : Nat → ℚ) :
    mockOn "volume-level" freshMock = stateAtVol rand 0 := by
  simp [mockOn, setIntervalM, freshMock, stateAtVol]

/-- One tick preserves the volume-only closed form. -/
theorem tick_stateAtVol (rand : Nat → ℚ) (t : Nat) :
    tick rand (stateAtVol rand t) = stateAtVol rand (t + 1) := by
  by_cases h : t % 1000 = 999
  · have h1 : (t + 1) % 1000 = 0 := by omega
    have h2 : (t + 1) / 1000 = t / 1000 + 1 := by omega
    have hr : 1000 - t % 1000 ≤ 1 := by omega
    simp [tick, stateAtVol, fireAction, hr, h1, h2, List.range_succ]
  · have h1 : (t + 1) % 1000 = t % 1000 + 1 := by omega
    have h2 : (t + 1) / 1000 = t / 1000 := by omega
    have hr : ¬(1000 - t % 1000 ≤ 1) := by omega
    have hr2 : 1000 - t % 1000 - 1 = 1000 - (t + 1) % 1000 := by omega
    simp [tick, stateAtVol, hr, h1, h2, hr2]

/-- Closed form after any amount of simulated time with only the
volume-level listener registered. -/
theorem advance_stateAtVol (rand : Nat → ℚ) (t : Nat) :
    advance rand t (mockOn "volume-level" freshMock) = stateAtVol rand t := by
  rw [mockOn_vol_eq rand]
  induction t with
  | zero => rfl
  | succ t ih =>
      show tick rand (advance rand t (stateAtVol rand 0)) = _
      rw [ih, tick_stateAtVol]

/-- The transcript message produced for script position `i` when the mock
session is started at time 0: fresh id `i`, the scripted speaker and text,
stamped at its cumulative delay of `8000 * i` ms. -/
def scriptMsg (i : Nat) : TranscriptMessage :=
  ⟨i, (mockScript.getD i defaultLine).speaker, (mockScript.getD i defaultLine).text, 8000 * i⟩

/-- Closed form of the state reached `t` ms after the component's mock attach
sequence (volume-level listener, then `start()`, at time 0): the volume
interval is always live; the script interval is live with the next script
position until it clears itself at 80000 ms; the transcript holds every
scripted line whose cumulative delay has elapsed. -/
def stateAtRun (rand : Nat → ℚ) (t : Nat) : MockState :=
  { now := t
    nextTimerId := 3
    nextMsgId := min 10 (t / 8000 + 1)
    timers := ⟨1, 1000, 1000 - t % 1000, TimerAction.volumeTick⟩ ::
      (if t < 80000 then
        [⟨2, 8000, 8000 - t % 8000, TimerAction.scriptTick (t / 8000 + 1)⟩]
      else [])
    mockVolumeInterval := some 1
    mockTranscriptInterval := some 2
    transcript := (List.range (min 10 (t / 8000 + 1))).map scriptMsg
    volume := if t / 1000 = 0 then 0 else rand (t / 1000 - 1) * (1 / 2)
    volumeEmits := (List.range (t / 1000)).map (fun i => rand i * (1 / 2))
    randIdx := t / 1000 }

/-- The attach sequence lands exactly in the closed form at time 0. -/
theorem attachMock_eq (rand : Nat → ℚ) : attachMock = stateAtRun rand 0 := by
  have h1 : List.range 1 = [0] := rfl
  simp [attachMock, mockStart, mockOn, setIntervalM, freshMock, stateAtRun, scriptMsg, h1]

/-- One tick preserves the running closed form. -/
theorem tick_stateAtRun (rand : Nat → ℚ) (t : Nat) :
    tick rand (stateAtRun rand t) = stateAtRun rand (t + 1) := by
  have hlen : mockScript.length = 10 := rfl
  by_cases h80 : t < 80000
  · by_cases hf8 : t % 8000 = 7999
    · have hf1 : t % 1000 = 999 := by
        have := Nat.mod_mod_of_dvd t (by norm_num : (1000 : Nat) ∣ 8000)
        omega
      by_cases hlast : t = 79999
      · subst hlast
        simp [tick, stateAtRun, fireAction, scriptMsg, hlen, List.range_succ]
      · have h1 : (t + 1) % 1000 = 0 := by omega
        have h2 : (t + 1) / 1000 = t / 1000 + 1 := by omega
        have h3 : (t + 1) % 8000 = 0 := by omega
        have h4 : (t + 1) / 8000 = t / 8000 + 1 := by omega
        have hidx : t / 8000 + 1 < 10 := by omega
        have hmin : min 10 (t / 8000 + 1) = t / 8000 + 1 := by omega
        have hmin2 : min 10 (t / 8000 + 1 + 1) = t / 8000 + 1 + 1 := by omega
        have htime : 8000 * (t / 8000 + 1) = t + 1 := by omega
        have h80' : t + 1 < 80000 := by omega
        have hv : 1000 - t % 1000 ≤ 1 := by omega
        have hs : 8000 - t % 8000 ≤ 1 := by omega
        simp [tick, stateAtRun, fireAction, scriptMsg, hlen, h80, h80', hf1, hf8,
          hv, hs, h1, h2, h3, h4, hidx, hmin, hmin2, htime, List.range_succ]
    · by_cases hf1 : t % 1000 = 999
      · have h1 : (t + 1) % 1000 = 0 := by omega
        have h2 : (t + 1) / 1000 = t / 1000 + 1 := by omega
        have h3 : (t + 1) % 8000 = t % 8000 + 1 := by omega
        have h4 : (t + 1) / 8000 = t / 8000 := by omega
        have hv : 1000 - t % 1000 ≤ 1 := by omega
        have hs : ¬(8000 - t % 8000 ≤ 1) := by omega
        have hrem8 : 8000 - t % 8000 - 1 = 8000 - (t + 1) % 8000 := by omega
        have h80' : t + 1 < 80000 := by omega
        simp [tick, stateAtRun, fireAction, hlen, h80, h80', hv, hs, h1, h2, h3, h4,
          hrem8, List.range_succ]
      · have h1 : (t + 1) % 1000 = t % 1000 + 1 := by omega
        have h2 : (t + 1) / 1000 = t / 1000 := by omega
        have h3 : (t + 1) % 8000 = t % 8000 + 1 := by omega
        have h4 : (t + 1) / 8000 = t / 8000 := by omega
        have hv : ¬(1000 - t % 1000 ≤ 1) := by omega
        have hs : ¬(8000 - t % 8000 ≤ 1) := by omega
        have hrem1 : 1000 - t % 1000 - 1 = 1000 - (t + 1) % 1000 := by omega
        have hrem8 : 8000 - t % 8000 - 1 = 8000 - (t + 1) % 8000 := by omega
        have h80' : t + 1 < 80000 := by omega
        simp [tick, stateAtRun, fireAction, hlen, h80, h80', hv, hs, h1, h2, h3, h4,
          hrem1, hrem8]
  · have h80' : ¬(t + 1 < 80000) := by omega
    have hmin : min 10 (t / 8000 + 1) = 10 := by omega
    have hmin' : min 10 ((t + 1) / 8000 + 1) = 10 := by omega
    by_cases hf1 : t % 1000 = 999
    · have h1 : (t + 1) % 1000 = 0 := by omega
      have h2 : (t + 1) / 1000 = t / 1000 + 1 := by omega
      have hv : 1000 - t % 1000 ≤ 1 := by omega
      simp [tick, stateAtRun, fireAction, hlen, h80, h80', hv, h1, h2, hmin, hmin',
        List.range_succ]
    · have h1 : (t + 1) % 1000 = t % 1000 + 1 := by omega
      have h2 : (t + 1) / 1000 = t / 1000 := by omega
      have hv : ¬(1000 - t % 1000 ≤ 1) := by omega
      have hrem1 : 1000 - t % 1000 - 1 = 1000 - (t + 1) % 1000 := by omega
      simp [tick, stateAtRun, fireAction, hlen, h80, h80', hv, h1, h2, hrem1, hmin, hmin']

/-- Closed form after any amount of simulated time from the attach
sequence. -/
theorem advance_attachMock (rand : Nat → ℚ) (t : Nat) :
    advance rand t attachMock = stateAtRun rand t := by
  rw [attachMock_eq rand]
  induction t with
  | zero => rfl
  | succ t ih =>
      show tick rand (advance rand t (stateAtRun rand 0)) = _
      rw [ih, tick_stateAtRun]

/-- C7. Scripted transcript growth: starting the mock at time 0 puts the
initial assistant line in the transcript immediately, and after any `t` ms
the transcript is exactly the scripted lines whose cumulative 8-second delay
has elapsed, in script order with their scripted speakers and texts, capped
at the script length — so no further lines are appended once the script is
exhausted. -/
theorem scriptedTranscriptGrowth (rand : Nat → ℚ) (t : Nat) :
    (advance rand t attachMock).transcript
        = (List.range (min mockScript.length (t / 8000 + 1))).map scriptMsg
    ∧ (advance rand t attachMock).transcript.length
        = min mockScript.length (t / 8000 + 1)
    ∧ (advance rand t attachMock).transcript.map (fun m => (m.type, m.text))
        = (mockScript.take (t / 8000 + 1)).map (fun l => (l.speaker, l.text))
    ∧ attachMock.transcript = [scriptMsg 0] := by
  have hlen : mockScript.length = 10 := rfl
  have hrun := advance_attachMock rand t
  refine ⟨?_, ?_, ?_, ?_⟩
  · rw [hrun, hlen]
    rfl
  · rw [hrun, hlen]
    simp [stateAtRun]
  · have htake : mockScript.take (t / 8000 + 1)
        = mockScript.take (min 10 (t / 8000 + 1)) := by
      rw [List.take_eq_take]
      simp [hlen]
      omega
    rw [hrun]
    simp only [stateAtRun]
    rw [htake]
    have hm : min 10 (t / 8000 + 1) ≤ 10 := by omega
    revert hm
    generalize min 10 (t / 8000 + 1) = m
    intro hm
    interval_cases m <;> decide
  · rw [attachMock_eq rand]
    have h1 : List.range 1 = [0] := rfl
    simp [stateAtRun, h1]

/-- C4. Timer cleanup: whatever simulated time has elapsed since the mock
attach sequence, `stop()` leaves no live interval, so advancing time by any
further amount only moves the clock — no transcript entry is appended and no
volume value is emitted; `stop()` is idempotent (safe to repeat), and the
unmount cleanup path is exactly equivalent to it. -/
theorem stopCancelsTimers (rand : Nat → ℚ) (t n : Nat) :
    (mockStop (advance rand t attachMock)).timers = []
    ∧ advance rand n (mockStop (advance rand t attachMock))
        = { mockStop (advance rand t attachMock) with
              now := (mockStop (advance rand t attachMock)).now + n }
    ∧ (advance rand n (mockStop (advance rand t attachMock))).transcript
        = (mockStop (advance rand t attachMock)).transcript
    ∧ (advance rand n (mockStop (advance rand t attachMock))).volumeEmits
        = (mockStop (advance rand t attachMock)).volumeEmits
    ∧ mockStop (mockStop (advance rand t attachMock))
        = mockStop (advance rand t attachMock)
    ∧ unmountCleanup (advance rand t attachMock)
        = mockStop (advance rand t attachMock) := by
  have h0 : (mockStop (advance rand t attachMock)).timers = [] := by
    rw [advance_attachMock]
    by_cases h80 : t < 80000 <;>
      simp [stateAtRun, mockStop, clearIntervalM, h80]
  refine ⟨h0, advance_no_timers rand n h0, ?_, ?_, mockStop_idem _,
    unmountCleanup_eq_mockStop _⟩
  · rw [advance_no_timers rand n h0]
  · rw [advance_no_timers rand n h0]

/-- C5. Volume emission on registration: registering the volume-level
listener on a fresh mock — with no `start()` call — immediately arms a
single 1000 ms interval, and after any `t` ms exactly one value per elapsed
full second has been passed to the callback, each equal to a pseudo-random
draw scaled by one half and hence lying in [0, 1/2); the same emission
sequence occurs when `start()` has also been called. -/
theorem volumeEmissionOnRegistration (rand : Nat → ℚ)
    (hrand : ∀ i, 0 ≤ rand i ∧ rand i < 1) (t : Nat) :
    (advance rand t (mockOn "volume-level" freshMock)).volumeEmits
        = (List.range (t / 1000)).map (fun i => rand i * (1 / 2))
    ∧ (∀ v ∈ (advance rand t (mockOn "volume-level" freshMock)).volumeEmits,
          0 ≤ v ∧ v < 1 / 2)
    ∧ (advance rand t (mockOn "volume-level" freshMock)).timers
        = [⟨1, 1000, 1000 - t % 1000, TimerAction.volumeTick⟩]
    ∧ (advance rand t (mockOn "volume-level" freshMock)).transcript = []
    ∧ (advance rand t attachMock).volumeEmits
        = (List.range (t / 1000)).map (fun i => rand i * (1 / 2)) := by
  have h := advance_stateAtVol rand t
  refine ⟨by rw [h]; rfl, ?_, by rw [h]; rfl, by rw [h]; rfl, ?_⟩
  · intro v hv
    rw [h] at hv
    simp only [stateAtVol, List.mem_map, List.mem_range] at hv
    obtain ⟨i, _, hi⟩ := hv
    subst hi
    constructor
    · exact mul_nonneg (hrand i).1 (by norm_num)
    · have := mul_lt_mul_of_pos_right (hrand i).2 (by norm_num : (0 : ℚ) < 1 / 2)
      simpa using this
  · rw [advance_attachMock]
    rfl

/-- Witness for C5: with the constant pseudo-random stream 1/3, one second
after registration exactly one volume value has been emitted, namely 1/6. -/
theorem volumeEmissionOnRegistration_witness :
    (advance (fun _ => 1 / 3) 1000 (mockOn "volume-level" freshMock)).volumeEmits
      = [1 / 6] := by
  have h := (volumeEmissionOnRegistration (fun _ => 1 / 3)
    (fun i => by norm_num) 1000).1
  rw [h]
  have h1 : (1000 : Nat) / 1000 = 1 := by norm_num
  have h2 : List.range 1 = [0] := rfl
  rw [h1, h2]
  norm_num

/-- C6 counterexample: the claim says registering a `call-start` callback
schedules it to fire once about 500 ms later; in the code `on('call-start')`
matches no handled event, so it changes nothing — after 500 ms (or any
time) the state is the fresh state with only its clock moved, with no timer
ever armed, so the callback cannot fire even once. -/
theorem callStartNeverFires :
    mockOn "call-start" freshMock = freshMock
    ∧ advance (fun _ => 0) 500 (mockOn "call-start" freshMock)
        = { freshMock with now := 500 }
    ∧ (advance (fun _ => 0) 500 (mockOn "call-start" freshMock)).timers = [] := by
  have h : mockOn "call-start" freshMock = freshMock := rfl
  have h2 := advance_no_timers (fun _ => 0) 500 (rfl : freshMock.timers = [])
  refine ⟨h, ?_, ?_⟩
  · rw [h, h2]
    rfl
  · rw [h, h2]
    rfl

/-- C6 (amended). Registering a callback for `call-start` on the Simulated
Voice Agent is a no-op: the mock's `on` handles only `volume-level`, so
nothing is scheduled or stored for `call-start` and the state — and any
later evolution — is exactly as if the registration had not happened. -/
theorem callStartRegistrationNoop (s : MockState) (rand : Nat → ℚ) (n : Nat) :
    mockOn "call-start" s = s
    ∧ advance rand n (mockOn "call-start" s) = advance rand n s := by
  have h : mockOn "call-start" s = s := by
    simp [mockOn]
  exact ⟨h, by rw [h]⟩

/-- C9 counterexample: for two entries 900 ms apart the spec's floored
duration is 0, but the stored row's duration is null (absent), not 0 — the
`|| null` normalisation in `createTranscript` erases the zero — so the
persisted duration does not equal the floor of the timestamp difference. -/
theorem durationZeroStoredAsNull :
    durationSeconds [⟨0, Speaker.assistant, "q", 0⟩, ⟨1, Speaker.user, "a", 900⟩] = 0
    ∧ (createTranscript 1 0
        { projectId := 1
          assistantId := "mock-assistant-1"
          participantName := none
          transcriptData := [⟨0, Speaker.assistant, "q", 0⟩, ⟨1, Speaker.user, "a", 900⟩]
          summary := none
          keyFindings := none
          sentimentScore := none
          duration := some (Int.ofNat (durationSeconds
            [⟨0, Speaker.assistant, "q", 0⟩, ⟨1, Speaker.user, "a", 900⟩])) }).duration
      ≠ some (Int.ofNat (durationSeconds
          [⟨0, Speaker.assistant, "q", 0⟩, ⟨1, Speaker.user, "a", 900⟩])) := by
  decide

/-- C9 (amended). Persisted duration: submitting the spec-modelled floored
duration through `createTranscript` stores exactly that number of whole
seconds when it is nonzero and null (absent) when it is zero — in
particular the reference pair T0, T0 + 37.9 s stores 37 — and for fewer
than two entries the floored duration is 0, so the stored value is
consistently absent. -/
theorem durationFloorPersisted (entries : List TranscriptMessage)
    (ins : InsertTranscript) (g n : Nat) (m : TranscriptMessage) :
    (createTranscript g n
        { ins with transcriptData := entries,
                   duration := some (Int.ofNat (durationSeconds entries)) }).duration
      = (if Int.ofNat (durationSeconds entries) = 0 then none
         else some (Int.ofNat (durationSeconds entries)))
    ∧ durationSeconds ([] : List TranscriptMessage) = 0
    ∧ durationSeconds [m] = 0
    ∧ (createTranscript g n
        { ins with duration := some (Int.ofNat (durationSeconds [m])) }).duration = none
    ∧ durationSeconds
        [⟨0, Speaker.assistant, "t0", 0⟩, ⟨1, Speaker.user, "t1", 37900⟩] = 37
    ∧ (createTranscript g n
        { ins with
            transcriptData :=
              [⟨0, Speaker.assistant, "t0", 0⟩, ⟨1, Speaker.user, "t1", 37900⟩],
            duration := some (Int.ofNat (durationSeconds
              [⟨0, Speaker.assistant, "t0", 0⟩, ⟨1, Speaker.user, "t1", 37900⟩])) }).duration
      = some 37 := by
  refine ⟨rfl, rfl, ?_, ?_, by decide, ?_⟩
  · cases m
    rfl
  · cases m
    simp [createTranscript, orNullInt, durationSeconds]
  · simp [createTranscript, orNullInt]
    decide
